import Mathlib

/-!
Shallow embedding of the channels implementation (channel.c, channel.h,
linked_list.c).  Channel messages (C `void*` payloads) are modelled as
integers.  The status enum is modelled by integer constants, keeping the
intentional aliasing CHANNEL_EMPTY = CHANNEL_FULL = 0 from channel.h.
The repository's channel.c contains two concatenated revisions; the later
revision (the one with service_request_t / channel_request_t, which the
claims cite by line number) is the one embedded here.  Mutexes and
semaphores serialize the code; their observable effect is captured by
returning, from each operation, the list of waiters that were woken and
the statuses written to them.
-/

namespace Channels

/-- Status code CHANNEL_EMPTY = 0 from enum channel_status (channel.h).
CHANNEL_EMPTY and CHANNEL_FULL intentionally alias the value 0. -/
def CHANNEL_EMPTY : Int := 0

/-- Status code CHANNEL_FULL = 0 from enum channel_status (channel.h). -/
def CHANNEL_FULL : Int := 0

/-- Status code SUCCESS = 1 from enum channel_status (channel.h). -/
def SUCCESS : Int := 1

/-- Status code CLOSED_ERROR = -2 from enum channel_status (channel.h). -/
def CLOSED_ERROR : Int := -2

/-- Status code GEN_ERROR = -1 from enum channel_status (channel.h). -/
def GEN_ERROR : Int := -1

/-- Status code DESTROY_ERROR = -3 from enum channel_status (channel.h). -/
def DESTROY_ERROR : Int := -3

/-- Modelled from the spec: the external fixed-capacity ring buffer
(buffer.c / buffer.h are not among the repository sources).  The spec
describes it as a fixed-capacity FIFO of opaque message values providing
add/remove/full/empty/capacity, assumed correct.  `items` lists the
buffered messages front first; the buffer's size is `items.length`. -/
structure Buffer where
  capacity : Nat
  items : List Int
deriving DecidableEq

/-- Modelled from the spec: buffer_create(size) yields an empty buffer of
exactly `size` slots. -/
def buffer_create (size : Nat) : Buffer :=
  { capacity := size, items := [] }

/-- Modelled from the spec: buffer_add appends one message at the back. -/
def buffer_add (b : Buffer) (d : Int) : Buffer :=
  { capacity := b.capacity, items := b.items ++ [d] }

/-- Modelled from the spec: buffer_remove yields the front message.  The
channel code only calls it after checking buffer_empty, so the empty case
is dead code (it returns 0 and leaves the buffer unchanged). -/
def buffer_remove (b : Buffer) : Int × Buffer :=
  match b.items with
  | [] => (0, b)
  | d :: rest => (d, { capacity := b.capacity, items := rest })

/-- buffer_full from channel.h: `size == capacity`. -/
def buffer_full (b : Buffer) : Bool :=
  b.items.length == b.capacity

/-- buffer_empty from channel.h: `0 == size`. -/
def buffer_empty (b : Buffer) : Bool :=
  0 == b.items.length

/-- enum direction from channel.h. -/
inductive Direction
  | SEND
  | RECV
deriving DecidableEq

/-- service_request_t from channel.c: the record allocated by one blocking
caller.  `id` identifies the request so that wakeups are observable in the
model; the C fields sem, lock, instances, ret and selected_index are
coordination and ownership fields whose observable effect is modelled by
the wakeup notifications the operations below return. -/
structure ServiceRequest where
  id : Nat
  direction : Direction
  valid : Bool
deriving DecidableEq

/-- channel_request_t from channel.c: a waiter-queue entry holding the
caller-supplied index and a reference to the service request. -/
structure ChannelRequest where
  index : Int
  request : ServiceRequest
deriving DecidableEq

/-- channel_t from channel.h: a buffer, two waiter queues and the closed
flag.  Queue lists are ordered as the linked list is, head first. -/
structure Channel where
  buffer : Buffer
  send_queue : List ChannelRequest
  recv_queue : List ChannelRequest
  closed : Bool
deriving DecidableEq

/-- queue_add from channel.c: wraps the request in a channel_request
carrying `index` and inserts it with list_insert.  The channel queues are
created without a compare function, and list_insert with no compare
function places the new node at the beginning of the list (linked_list.c),
so enqueueing prepends at the head. -/
def queue_add (queue : List ChannelRequest) (r : ServiceRequest) (index : Int) :
    List ChannelRequest :=
  { index := index, request := r } :: queue

/-- queue_serve from channel.h: posts the semaphore of the request at the
head of the queue, if any, and removes that entry.  Returns the remaining
queue and the entry that was served. -/
def queue_serve (queue : List ChannelRequest) :
    List ChannelRequest × Option ChannelRequest :=
  match queue with
  | [] => ([], none)
  | e :: rest => (rest, some e)

/-- serve_request from channel.c: starting at the head, discards entries
whose request is no longer valid; the first entry with a valid request is
posted (its waiter is woken) and removed.  Returns the remaining queue and
the entry that was served, if any. -/
def serve_request : List ChannelRequest → List ChannelRequest × Option ChannelRequest
  | [] => ([], none)
  | e :: rest => if e.request.valid then (rest, some e) else serve_request rest

/-- clean_request_queue from channel.c: walks the whole queue writing
CLOSED_ERROR into every request's return slot and posting its semaphore;
every entry is removed, so the queue ends empty.  Returns the wakeup
notifications (request id, status written) in queue order. -/
def clean_request_queue (queue : List ChannelRequest) : List (Nat × Int) :=
  queue.map fun e => (e.request.id, CLOSED_ERROR)

/-- channel_create from channel.c. -/
def channel_create (size : Nat) : Channel :=
  { buffer := buffer_create size, send_queue := [], recv_queue := [], closed := false }

/-- channel_unsafe_send from channel.c. -/
def channel_unsafe_send (c : Channel) (d : Int) : Int × Channel :=
  if c.closed then (CLOSED_ERROR, c)
  else if buffer_full c.buffer then (CHANNEL_FULL, c)
  else (SUCCESS, { c with buffer := buffer_add c.buffer d })

/-- channel_unsafe_receive from channel.c.  The last component is the
message stored through the data pointer (none when nothing was stored). -/
def channel_unsafe_receive (c : Channel) : Int × Channel × Option Int :=
  if c.closed then (CLOSED_ERROR, c, none)
  else if buffer_empty c.buffer then (CHANNEL_EMPTY, c, none)
  else (SUCCESS, { c with buffer := (buffer_remove c.buffer).2 },
        some (buffer_remove c.buffer).1)

/-- Result of a non-blocking send: the returned status, the channel
afterwards, and the waiter entry woken by serve_request, if any. -/
structure SendResult where
  status : Int
  channel : Channel
  served : Option ChannelRequest
deriving DecidableEq

/-- Result of a non-blocking receive: status, channel afterwards, waiter
woken, and the message stored through the data pointer. -/
structure RecvResult where
  status : Int
  channel : Channel
  served : Option ChannelRequest
  data : Option Int
deriving DecidableEq

/-- channel_non_blocking_send from channel.c: under the channel lock, the
unsafe core; then, if the status is SUCCESS and the recv waiter queue is
non-empty, serve_request on the recv queue. -/
def channel_non_blocking_send (c : Channel) (d : Int) : SendResult :=
  if (channel_unsafe_send c d).1 = SUCCESS ∧ (channel_unsafe_send c d).2.recv_queue ≠ [] then
    { status := (channel_unsafe_send c d).1
      channel := { (channel_unsafe_send c d).2 with
                   recv_queue := (serve_request (channel_unsafe_send c d).2.recv_queue).1 }
      served := (serve_request (channel_unsafe_send c d).2.recv_queue).2 }
  else
    { status := (channel_unsafe_send c d).1
      channel := (channel_unsafe_send c d).2
      served := none }

/-- channel_non_blocking_receive from channel.c: the unsafe core; then, if
the status is SUCCESS and the send waiter queue is non-empty, serve_request
on the send queue. -/
def channel_non_blocking_receive (c : Channel) : RecvResult :=
  if (channel_unsafe_receive c).1 = SUCCESS ∧ (channel_unsafe_receive c).2.1.send_queue ≠ [] then
    { status := (channel_unsafe_receive c).1
      channel := { (channel_unsafe_receive c).2.1 with
                   send_queue := (serve_request (channel_unsafe_receive c).2.1.send_queue).1 }
      served := (serve_request (channel_unsafe_receive c).2.1.send_queue).2
      data := (channel_unsafe_receive c).2.2 }
  else
    { status := (channel_unsafe_receive c).1
      channel := (channel_unsafe_receive c).2.1
      served := none
      data := (channel_unsafe_receive c).2.2 }

/-- channel_close from channel.c: if not yet closed, set closed and run
clean_request_queue on each non-empty waiter queue (recv first, then
send), returning SUCCESS; else CLOSED_ERROR with nothing changed.  The
third component lists the wakeup notifications delivered. -/
def channel_close (c : Channel) : Int × Channel × List (Nat × Int) :=
  if c.closed = false then
    (SUCCESS,
     { c with closed := true, recv_queue := [], send_queue := [] },
     (if c.recv_queue ≠ [] then clean_request_queue c.recv_queue else []) ++
       (if c.send_queue ≠ [] then clean_request_queue c.send_queue else []))
  else
    (CLOSED_ERROR, c, [])

/-- channel_destroy from channel.c, taking a possibly-null pointer (none
is NULL).  The C body performs no null check: its first action
dereferences the argument, so a null call never returns a status — that
is modelled as none.  On a closed channel everything is freed (the
resulting channel is none) and the status is SUCCESS; on an open channel
the status is DESTROY_ERROR and the channel is unchanged. -/
def channel_destroy : Option Channel → Option (Int × Option Channel)
  | none => none
  | some c => if c.closed then some (SUCCESS, none) else some (DESTROY_ERROR, some c)

/-- channel_select from channel.c: the committed body is a stub — it
returns SUCCESS without reading the operation list, performing any
operation, or writing through selected_index.  Modelled as the identity on
the channel list and on the caller's selected_index variable (whose prior
value is passed in and comes back unwritten). -/
def channel_select (channel_list : List (Channel × Direction × Int))
    (channel_count : Nat) (selected_index : Nat) :
    Int × List (Channel × Direction × Int) × Nat :=
  (SUCCESS, channel_list, selected_index)

/-- channel_send from channel.c: `ret = channel_non_blocking_send(...)`,
then `while (ret == CHANNEL_FULL)` the thread enqueues itself, waits on
its semaphore, and retries the non-blocking send.  `states` is the channel
state this thread observes at its initial attempt and at each retry after
a wakeup (other threads may change the channel arbitrarily in between);
none means the thread is still suspended.  Only the returned status is
modelled. -/
def channel_send_trace (d : Int) : List Channel → Option Int
  | [] => none
  | c :: rest =>
    if (channel_non_blocking_send c d).status = CHANNEL_FULL then
      channel_send_trace d rest
    else
      some (channel_non_blocking_send c d).status

/-- channel_receive from channel.c: the analogous
`while (ret == CHANNEL_EMPTY)` retry loop. -/
def channel_receive_trace : List Channel → Option Int
  | [] => none
  | c :: rest =>
    if (channel_non_blocking_receive c).status = CHANNEL_EMPTY then
      channel_receive_trace rest
    else
      some (channel_non_blocking_receive c).status

/-- channel_send in a single-threaded run: the initial non-blocking
attempt decides; a CHANNEL_FULL attempt would suspend forever (none). -/
def channel_send_st (c : Channel) (d : Int) : Option (Int × Channel) :=
  if (channel_non_blocking_send c d).status = CHANNEL_FULL then none
  else some ((channel_non_blocking_send c d).status, (channel_non_blocking_send c d).channel)

/-- channel_receive in a single-threaded run: the initial non-blocking
attempt decides; a CHANNEL_EMPTY attempt would suspend forever (none). -/
def channel_receive_st (c : Channel) : Option (Int × Channel × Option Int) :=
  if (channel_non_blocking_receive c).status = CHANNEL_EMPTY then none
  else some ((channel_non_blocking_receive c).status,
             (channel_non_blocking_receive c).channel,
             (channel_non_blocking_receive c).data)

/-- The service request a blocking caller allocates:
init_service_request(direction, data, NULL, &ret) in channel.c, whose
valid flag starts true. -/
def mk_blocking_request (id : Nat) (dir : Direction) : ServiceRequest :=
  { id := id, direction := dir, valid := true }

/-- The registration a blocked channel_send performs in channel.c:
queue_add(channel->send_queue, send_request, -1). -/
def channel_send_register (c : Channel) (id : Nat) : Channel :=
  { c with send_queue := queue_add c.send_queue (mk_blocking_request id Direction.SEND) (-1) }

/-- The registration a blocked channel_receive performs in channel.c:
queue_add(channel->send_queue, recv_request, -1) — the source adds the
recv request to the send queue (while holding recv_queue_lock). -/
def channel_receive_register (c : Channel) (id : Nat) : Channel :=
  { c with send_queue := queue_add c.send_queue (mk_blocking_request id Direction.RECV) (-1) }

/-- One receive combined with the schedule in which the blocked sender
woken by serve_request immediately re-runs its non-blocking send (the
retry inside channel_send's while loop); `pending` gives the message each
blocked sender is trying to send, by request id. -/
def receive_and_wake (c : Channel) (pending : Nat → Int) : Option Int × Channel :=
  match (channel_non_blocking_receive c).served with
  | some e => ((channel_non_blocking_receive c).data,
               (channel_non_blocking_send (channel_non_blocking_receive c).channel
                 (pending e.request.id)).channel)
  | none => ((channel_non_blocking_receive c).data, (channel_non_blocking_receive c).channel)

/-- A closed channel of capacity 1 holding one message. -/
def ex_closed : Channel :=
  { buffer := { capacity := 1, items := [9] }, send_queue := [], recv_queue := [], closed := true }

/-- An open, full channel of capacity 1. -/
def ex_full : Channel :=
  { buffer := { capacity := 1, items := [5] }, send_queue := [], recv_queue := [], closed := false }

/-- An open, empty channel of capacity 1. -/
def ex_empty : Channel :=
  { buffer := { capacity := 1, items := [] }, send_queue := [], recv_queue := [], closed := false }

/-- An open channel of capacity 2 holding one message. -/
def ex_mid : Channel :=
  { buffer := { capacity := 2, items := [5] }, send_queue := [], recv_queue := [], closed := false }

/-- A waiter entry for a blocked sender (request id 1). -/
def ex_waiterS : ChannelRequest :=
  { index := -1, request := mk_blocking_request 1 Direction.SEND }

/-- A waiter entry for a blocked receiver (request id 2). -/
def ex_waiterR : ChannelRequest :=
  { index := -1, request := mk_blocking_request 2 Direction.RECV }

/-- An open channel with one waiter in each queue. -/
def ex_open_with_waiters : Channel :=
  { buffer := { capacity := 1, items := [5] }, send_queue := [ex_waiterS],
    recv_queue := [ex_waiterR], closed := false }

/-- Select input A: an open, empty channel. -/
def sel_chanA : Channel :=
  { buffer := { capacity := 1, items := [] }, send_queue := [], recv_queue := [], closed := false }

/-- Select input B: an open channel whose buffer holds 7. -/
def sel_chanB : Channel :=
  { buffer := { capacity := 1, items := [7] }, send_queue := [], recv_queue := [], closed := false }

/-- Capacity-1 channel, full with 5, after blocking senders with request
ids 1 (message 10) then 2 (message 20) registered in that order. -/
def c4_after_senders : Channel :=
  channel_send_register (channel_send_register ex_full 1) 2

/-- Messages the two blocked senders of c4_after_senders carry: request 1
(sender A) sends 10, request 2 (sender B) sends 20. -/
def c4_pending : Nat → Int :=
  fun id => if id = 1 then 10 else 20

/-- Channel of capacity 2 holding [42]. -/
def cap2_42 : Channel :=
  { buffer := { capacity := 2, items := [42] }, send_queue := [], recv_queue := [], closed := false }

/-- Channel of capacity 2 holding [42, 43]. -/
def cap2_42_43 : Channel :=
  { buffer := { capacity := 2, items := [42, 43] }, send_queue := [], recv_queue := [],
    closed := false }

/-- Channel of capacity 2 holding [43]. -/
def cap2_43 : Channel :=
  { buffer := { capacity := 2, items := [43] }, send_queue := [], recv_queue := [], closed := false }

/-- Channel of capacity 2, drained empty. -/
def cap2_drained : Channel :=
  { buffer := { capacity := 2, items := [] }, send_queue := [], recv_queue := [], closed := false }

/-- Helper: the status a non-blocking send returns is the status of the
unsafe core. -/
theorem nb_send_status_eq (c : Channel) (d : Int) :
    (channel_non_blocking_send c d).status = (channel_unsafe_send c d).1 := by
  unfold channel_non_blocking_send
  split <;> rfl

/-- Helper: the status a non-blocking receive returns is the status of the
unsafe core. -/
theorem nb_recv_status_eq (c : Channel) :
    (channel_non_blocking_receive c).status = (channel_unsafe_receive c).1 := by
  unfold channel_non_blocking_receive
  split <;> rfl

/-- Helper: the unsafe send core returns one of CLOSED_ERROR, CHANNEL_FULL
or SUCCESS. -/
theorem unsafe_send_status (c : Channel) (d : Int) :
    (channel_unsafe_send c d).1 = CLOSED_ERROR ∨ (channel_unsafe_send c d).1 = CHANNEL_FULL ∨
      (channel_unsafe_send c d).1 = SUCCESS := by
  unfold channel_unsafe_send
  by_cases h : c.closed <;> by_cases h2 : buffer_full c.buffer <;> simp [h, h2]

/-- Helper: the unsafe receive core returns one of CLOSED_ERROR,
CHANNEL_EMPTY or SUCCESS. -/
theorem unsafe_recv_status (c : Channel) :
    (channel_unsafe_receive c).1 = CLOSED_ERROR ∨ (channel_unsafe_receive c).1 = CHANNEL_EMPTY ∨
      (channel_unsafe_receive c).1 = SUCCESS := by
  unfold channel_unsafe_receive
  by_cases h : c.closed <;> by_cases h2 : buffer_empty c.buffer <;> simp [h, h2]

/-- Claim C1: channel_select is required, when some listed channel can
perform its proposed operation, to perform the lowest-indexed available
operation, set *selected_index to the acting channel's index, and return
that operation's status.  The committed body is a stub: on
[RECV A, RECV B] with A empty and B holding 7 it returns SUCCESS while
performing no operation — B still holds 7 afterwards and the caller's
selected_index variable keeps its prior value 99 instead of becoming 1. -/
theorem channel_select_stub_no_op :
    channel_select [(sel_chanA, Direction.RECV, 0), (sel_chanB, Direction.RECV, 0)] 2 99 =
      (SUCCESS, [(sel_chanA, Direction.RECV, 0), (sel_chanB, Direction.RECV, 0)], 99) ∧
    sel_chanB.buffer.items = [7] ∧ (99 : Nat) ≠ 1 :=
  ⟨rfl, rfl, by decide⟩

/-- Claim C2: closing an open channel returns SUCCESS, sets closed to
true, leaves the buffer untouched (no buffer operation), empties both
waiter queues, and wakes every entry that was waiting in either queue
with outcome CLOSED_ERROR. -/
theorem channel_close_drains_queues (c : Channel) (h : c.closed = false) :
    channel_close c =
      (SUCCESS,
       { c with closed := true, recv_queue := [], send_queue := [] },
       (c.recv_queue ++ c.send_queue).map fun e => (e.request.id, CLOSED_ERROR)) ∧
    ∀ n ∈ (channel_close c).2.2, n.2 = CLOSED_ERROR := by
  have hmain : channel_close c =
      (SUCCESS,
       { c with closed := true, recv_queue := [], send_queue := [] },
       (c.recv_queue ++ c.send_queue).map fun e => (e.request.id, CLOSED_ERROR)) := by
    by_cases h1 : c.recv_queue = [] <;> by_cases h2 : c.send_queue = [] <;>
      simp [channel_close, h, h1, h2, clean_request_queue]
  refine ⟨hmain, ?_⟩
  rw [hmain]
  intro n hn
  simp only [List.mem_map] at hn
  obtain ⟨e, _, he⟩ := hn
  rw [← he]

/-- Witness for C2 at a concrete open channel with one waiter in each
queue. -/
theorem channel_close_drains_queues_example :
    channel_close ex_open_with_waiters =
      (SUCCESS,
       { ex_open_with_waiters with closed := true, recv_queue := [], send_queue := [] },
       (ex_open_with_waiters.recv_queue ++ ex_open_with_waiters.send_queue).map
         fun e => (e.request.id, CLOSED_ERROR)) ∧
    ∀ n ∈ (channel_close ex_open_with_waiters).2.2, n.2 = CLOSED_ERROR :=
  channel_close_drains_queues ex_open_with_waiters rfl

/-- Claim C3: whatever status a blocking send or receive returns, against
any sequence of channel states the environment presents, it is never
CHANNEL_FULL or CHANNEL_EMPTY — only SUCCESS, CLOSED_ERROR or GEN_ERROR
can reach the caller, because the retry loops run until the status
differs from full/empty. -/
theorem blocking_ops_never_full_empty (d : Int) (states : List Channel) (r : Int)
    (h : channel_send_trace d states = some r ∨ channel_receive_trace states = some r) :
    (r = SUCCESS ∨ r = CLOSED_ERROR ∨ r = GEN_ERROR) ∧
      r ≠ CHANNEL_FULL ∧ r ≠ CHANNEL_EMPTY := by
  revert h
  induction states with
  | nil =>
    intro h
    rcases h with h | h <;> simp [channel_send_trace, channel_receive_trace] at h
  | cons c rest ih =>
    intro h
    rcases h with h | h
    · by_cases hc : (channel_non_blocking_send c d).status = CHANNEL_FULL
      · simp only [channel_send_trace] at h
        rw [if_pos hc] at h
        exact ih (Or.inl h)
      · simp only [channel_send_trace] at h
        rw [if_neg hc] at h
        have hr := Option.some.inj h
        subst hr
        rw [nb_send_status_eq] at hc ⊢
        rcases unsafe_send_status c d with hs | hs | hs
        · rw [hs]
          refine ⟨Or.inr (Or.inl rfl), by decide, by decide⟩
        · exact absurd hs hc
        · rw [hs]
          refine ⟨Or.inl rfl, by decide, by decide⟩
    · by_cases hc : (channel_non_blocking_receive c).status = CHANNEL_EMPTY
      · simp only [channel_receive_trace] at h
        rw [if_pos hc] at h
        exact ih (Or.inr h)
      · simp only [channel_receive_trace] at h
        rw [if_neg hc] at h
        have hr := Option.some.inj h
        subst hr
        rw [nb_recv_status_eq] at hc ⊢
        rcases unsafe_recv_status c with hs | hs | hs
        · rw [hs]
          refine ⟨Or.inr (Or.inl rfl), by decide, by decide⟩
        · exact absurd hs hc
        · rw [hs]
          refine ⟨Or.inl rfl, by decide, by decide⟩

/-- Witness for C3: a blocking send on a fresh open channel of capacity 1
returns SUCCESS, which is neither CHANNEL_FULL nor CHANNEL_EMPTY. -/
theorem blocking_ops_never_full_empty_example :
    (SUCCESS = SUCCESS ∨ SUCCESS = CLOSED_ERROR ∨ SUCCESS = GEN_ERROR) ∧
      SUCCESS ≠ CHANNEL_FULL ∧ SUCCESS ≠ CHANNEL_EMPTY :=
  blocking_ops_never_full_empty 7 [channel_create 1] SUCCESS (Or.inl (by decide))

/-- Claim C4 counterexample: queue_add does not append at the tail — with
no compare function list_insert prepends at the head — and in the
capacity-1 scenario with blocked senders A (message 10) then B
(message 20), the two receives after the buffered 5 deliver B's message
20, not A's 10: service is LIFO among the blocked senders. -/
theorem waiter_queue_not_fifo :
    queue_add (queue_add [] (mk_blocking_request 1 Direction.SEND) (-1))
        (mk_blocking_request 2 Direction.SEND) (-1) ≠
      queue_add [] (mk_blocking_request 1 Direction.SEND) (-1) ++
        [{ index := -1, request := mk_blocking_request 2 Direction.SEND }] ∧
    (receive_and_wake c4_after_senders c4_pending).1 = some 5 ∧
    (receive_and_wake (receive_and_wake c4_after_senders c4_pending).2 c4_pending).1 =
      some 20 ∧
    (20 : Int) ≠ 10 := by
  refine ⟨by decide, rfl, rfl, by decide⟩

/-- Claim C4 (amended): each waiter queue is LIFO, not FIFO — queue_add
prepends the new entry at the head (list_insert with no compare function
inserts at the beginning of the list) and service pops from the head, so
the most recently enqueued entry is served next; consequently, if
blocking senders A then B block in that order on the same full channel of
capacity 1, the next two receives deliver the originally buffered value
and then B's message — B's message is delivered before A's. -/
theorem waiter_queue_lifo (q : List ChannelRequest) (r : ServiceRequest) (i : Int)
    (v0 ma mb : Int) :
    queue_add q r i = { index := i, request := r } :: q ∧
    queue_serve (queue_add q r i) = (q, some { index := i, request := r }) ∧
    (receive_and_wake
        (channel_send_register (channel_send_register
          { buffer := { capacity := 1, items := [v0] }, send_queue := [], recv_queue := [],
            closed := false } 1) 2)
        (fun id => if id = 1 then ma else mb)).1 = some v0 ∧
    (receive_and_wake
        (receive_and_wake
          (channel_send_register (channel_send_register
            { buffer := { capacity := 1, items := [v0] }, send_queue := [], recv_queue := [],
              closed := false } 1) 2)
          (fun id => if id = 1 then ma else mb)).2
        (fun id => if id = 1 then ma else mb)).1 = some mb :=
  ⟨rfl, rfl, rfl, rfl⟩

/-- Claim C5: under the channel lock the non-blocking operations return
CLOSED_ERROR when the channel is closed (checked first); otherwise
CHANNEL_FULL (send, buffer full) or CHANNEL_EMPTY (receive, buffer empty)
with the channel unchanged; otherwise the value is added to / removed
from the buffer, serve_request pumps the opposite waiter queue, and
SUCCESS is returned. -/
theorem nonblocking_ops_cases (c : Channel) (d : Int) :
    (c.closed = true → channel_non_blocking_send c d =
      { status := CLOSED_ERROR, channel := c, served := none }) ∧
    (c.closed = false → buffer_full c.buffer = true → channel_non_blocking_send c d =
      { status := CHANNEL_FULL, channel := c, served := none }) ∧
    (c.closed = false → buffer_full c.buffer = false → channel_non_blocking_send c d =
      { status := SUCCESS
        channel := { c with
                     buffer := buffer_add c.buffer d
                     recv_queue := (serve_request c.recv_queue).1 }
        served := (serve_request c.recv_queue).2 }) ∧
    (c.closed = true → channel_non_blocking_receive c =
      { status := CLOSED_ERROR, channel := c, served := none, data := none }) ∧
    (c.closed = false → buffer_empty c.buffer = true → channel_non_blocking_receive c =
      { status := CHANNEL_EMPTY, channel := c, served := none, data := none }) ∧
    (c.closed = false → buffer_empty c.buffer = false → channel_non_blocking_receive c =
      { status := SUCCESS
        channel := { c with
                     buffer := (buffer_remove c.buffer).2
                     send_queue := (serve_request c.send_queue).1 }
        served := (serve_request c.send_queue).2
        data := some (buffer_remove c.buffer).1 }) := by
  refine ⟨fun h1 => ?_, fun h1 h2 => ?_, fun h1 h2 => ?_,
          fun h1 => ?_, fun h1 h2 => ?_, fun h1 h2 => ?_⟩
  · simp [channel_non_blocking_send, channel_unsafe_send, h1, CLOSED_ERROR, SUCCESS]
  · simp [channel_non_blocking_send, channel_unsafe_send, h1, h2, CHANNEL_FULL, SUCCESS]
  · by_cases hq : c.recv_queue = [] <;>
      simp [channel_non_blocking_send, channel_unsafe_send, h1, h2, hq, serve_request]
  · simp [channel_non_blocking_receive, channel_unsafe_receive, h1, CLOSED_ERROR, SUCCESS]
  · simp [channel_non_blocking_receive, channel_unsafe_receive, h1, h2, CHANNEL_EMPTY, SUCCESS]
  · by_cases hq : c.send_queue = [] <;>
      simp [channel_non_blocking_receive, channel_unsafe_receive, h1, h2, hq, serve_request]

/-- Witness for C5 at concrete closed, full, empty and part-filled
channels. -/
theorem nonblocking_ops_cases_example :
    channel_non_blocking_send ex_closed 3 =
      { status := CLOSED_ERROR, channel := ex_closed, served := none } ∧
    channel_non_blocking_send ex_full 3 =
      { status := CHANNEL_FULL, channel := ex_full, served := none } ∧
    channel_non_blocking_send ex_mid 3 =
      { status := SUCCESS
        channel := { ex_mid with
                     buffer := buffer_add ex_mid.buffer 3
                     recv_queue := (serve_request ex_mid.recv_queue).1 }
        served := (serve_request ex_mid.recv_queue).2 } ∧
    channel_non_blocking_receive ex_closed =
      { status := CLOSED_ERROR, channel := ex_closed, served := none, data := none } ∧
    channel_non_blocking_receive ex_empty =
      { status := CHANNEL_EMPTY, channel := ex_empty, served := none, data := none } ∧
    channel_non_blocking_receive ex_mid =
      { status := SUCCESS
        channel := { ex_mid with
                     buffer := (buffer_remove ex_mid.buffer).2
                     send_queue := (serve_request ex_mid.send_queue).1 }
        served := (serve_request ex_mid.send_queue).2
        data := some (buffer_remove ex_mid.buffer).1 } :=
  ⟨(nonblocking_ops_cases ex_closed 3).1 rfl,
   (nonblocking_ops_cases ex_full 3).2.1 rfl rfl,
   (nonblocking_ops_cases ex_mid 3).2.2.1 rfl rfl,
   (nonblocking_ops_cases ex_closed 3).2.2.2.1 rfl,
   (nonblocking_ops_cases ex_empty 0).2.2.2.2.1 rfl rfl,
   (nonblocking_ops_cases ex_mid 0).2.2.2.2.2 rfl rfl⟩

/-- Claim C6 counterexample: channel_destroy performs no null check — on a
null argument it dereferences the pointer and never returns a status, so
it does not return GEN_ERROR. -/
theorem destroy_null_no_gen_error :
    channel_destroy none = none ∧
    ¬ ∃ c', channel_destroy (none : Option Channel) = some (GEN_ERROR, c') := by
  refine ⟨rfl, ?_⟩
  rintro ⟨c', hc⟩
  simp [channel_destroy] at hc

/-- Claim C6 (amended): channel_destroy has no null check (a null argument
is dereferenced without producing a return status); on a non-null open
channel it returns DESTROY_ERROR and leaves the channel unchanged and
usable; on a closed channel it frees the buffer, the queues, the locks and
the channel, and returns SUCCESS. -/
theorem destroy_cases (c : Channel) :
    (c.closed = false → channel_destroy (some c) = some (DESTROY_ERROR, some c)) ∧
    (c.closed = true → channel_destroy (some c) = some (SUCCESS, none)) ∧
    channel_destroy none = none := by
  refine ⟨fun h => ?_, fun h => ?_, rfl⟩ <;> simp [channel_destroy, h]

/-- Witness for C6 at a concrete open channel and a concrete closed
channel. -/
theorem destroy_cases_example :
    channel_destroy (some ex_full) = some (DESTROY_ERROR, some ex_full) ∧
    channel_destroy (some ex_closed) = some (SUCCESS, none) :=
  ⟨(destroy_cases ex_full).1 rfl, (destroy_cases ex_closed).2.1 rfl⟩

/-- Claim C7 counterexample: on a full capacity-1 channel the blocking
send's registration enqueues an entry with index -1 (not 0) into the send
queue, and on an empty channel the blocking receive's registration leaves
the receive queue empty, placing its entry (also with index -1) into the
send queue instead of the receive queue. -/
theorem blocked_register_not_index_zero :
    (channel_non_blocking_send ex_full 9).status = CHANNEL_FULL ∧
    (channel_send_register ex_full 1).send_queue.map (fun e => e.index) = [-1] ∧
    ¬ ((-1 : Int) = 0) ∧
    (channel_non_blocking_receive ex_empty).status = CHANNEL_EMPTY ∧
    (channel_receive_register ex_empty 2).recv_queue = [] ∧
    (channel_receive_register ex_empty 2).send_queue =
      [{ index := -1, request := mk_blocking_request 2 Direction.RECV }] := by
  decide

/-- Claim C7 (amended): whenever a blocking channel_send finds the buffer
full it enqueues a queue entry carrying index -1 at the head of the send
waiter queue; whenever a blocking channel_receive finds the buffer empty
it also enqueues its entry, with index -1, into the send waiter queue (not
the receive queue), leaving the receive queue unchanged. -/
theorem blocked_register_effect (c : Channel) (d : Int) (i j : Nat) :
    ((channel_non_blocking_send c d).status = CHANNEL_FULL →
      (channel_send_register c i).send_queue =
        { index := -1, request := mk_blocking_request i Direction.SEND } :: c.send_queue ∧
      (channel_send_register c i).recv_queue = c.recv_queue) ∧
    ((channel_non_blocking_receive c).status = CHANNEL_EMPTY →
      (channel_receive_register c j).send_queue =
        { index := -1, request := mk_blocking_request j Direction.RECV } :: c.send_queue ∧
      (channel_receive_register c j).recv_queue = c.recv_queue) :=
  ⟨fun _ => ⟨rfl, rfl⟩, fun _ => ⟨rfl, rfl⟩⟩

/-- Witness for C7 at a concrete full channel (blocked send) and a
concrete empty channel (blocked receive). -/
theorem blocked_register_effect_example :
    ((channel_send_register ex_full 0).send_queue =
      { index := -1, request := mk_blocking_request 0 Direction.SEND } :: ex_full.send_queue ∧
     (channel_send_register ex_full 0).recv_queue = ex_full.recv_queue) ∧
    ((channel_receive_register ex_empty 0).send_queue =
      { index := -1, request := mk_blocking_request 0 Direction.RECV } :: ex_empty.send_queue ∧
     (channel_receive_register ex_empty 0).recv_queue = ex_empty.recv_queue) :=
  ⟨(blocked_register_effect ex_full 9 0 0).1 rfl,
   (blocked_register_effect ex_empty 9 0 0).2 rfl⟩

/-- Claim C8: the single-threaded round trip on a fresh channel of
capacity 2: send(42) SUCCESS, send(43) SUCCESS, non-blocking send(44)
CHANNEL_FULL with the channel unchanged, receive 42 SUCCESS, receive 43
SUCCESS, then non-blocking receive CHANNEL_EMPTY. -/
theorem roundtrip_capacity_two :
    channel_send_st (channel_create 2) 42 = some (SUCCESS, cap2_42) ∧
    channel_send_st cap2_42 43 = some (SUCCESS, cap2_42_43) ∧
    (channel_non_blocking_send cap2_42_43 44).status = CHANNEL_FULL ∧
    (channel_non_blocking_send cap2_42_43 44).channel = cap2_42_43 ∧
    channel_receive_st cap2_42_43 = some (SUCCESS, cap2_43, some 42) ∧
    channel_receive_st cap2_43 = some (SUCCESS, cap2_drained, some 43) ∧
    (channel_non_blocking_receive cap2_drained).status = CHANNEL_EMPTY := by
  decide

/-- Claim C9: channel_close on an already-closed channel returns
CLOSED_ERROR and changes nothing — buffer, both waiter queues and the
closed flag stay exactly as before, and no waiter is woken. -/
theorem close_on_closed_noop (c : Channel) (h : c.closed = true) :
    channel_close c = (CLOSED_ERROR, c, []) := by
  simp [channel_close, h]

/-- Witness for C9 at a concrete closed channel. -/
theorem close_on_closed_noop_example :
    channel_close ex_closed = (CLOSED_ERROR, ex_closed, []) :=
  close_on_closed_noop ex_closed rfl

/-- Claim C10: channel_create 0 yields a channel whose buffer has
capacity 0 and size 0; on any open channel with such a buffer every
non-blocking send returns CHANNEL_FULL and every non-blocking receive
returns CHANNEL_EMPTY — both numerically 0 — because a capacity-0 buffer
is simultaneously full and empty. -/
theorem capacity_zero_full_and_empty (c : Channel) (d : Int)
    (hcap : c.buffer.capacity = 0) (hitems : c.buffer.items = [])
    (hopen : c.closed = false) :
    (channel_create 0).buffer.capacity = 0 ∧ (channel_create 0).buffer.items = [] ∧
    buffer_full c.buffer = true ∧ buffer_empty c.buffer = true ∧
    (channel_non_blocking_send c d).status = CHANNEL_FULL ∧
    (channel_non_blocking_receive c).status = CHANNEL_EMPTY ∧
    CHANNEL_FULL = 0 ∧ CHANNEL_EMPTY = 0 := by
  have hfull : buffer_full c.buffer = true := by
    simp [buffer_full, hcap, hitems]
  have hempty : buffer_empty c.buffer = true := by
    simp [buffer_empty, hitems]
  refine ⟨rfl, rfl, hfull, hempty, ?_, ?_, rfl, rfl⟩
  · rw [nb_send_status_eq]
    simp [channel_unsafe_send, hopen, hfull]
  · rw [nb_recv_status_eq]
    simp [channel_unsafe_receive, hopen, hempty]

/-- Witness for C10 at the channel created with size 0. -/
theorem capacity_zero_full_and_empty_example :
    (channel_create 0).buffer.capacity = 0 ∧ (channel_create 0).buffer.items = [] ∧
    buffer_full (channel_create 0).buffer = true ∧
    buffer_empty (channel_create 0).buffer = true ∧
    (channel_non_blocking_send (channel_create 0) 5).status = CHANNEL_FULL ∧
    (channel_non_blocking_receive (channel_create 0)).status = CHANNEL_EMPTY ∧
    CHANNEL_FULL = 0 ∧ CHANNEL_EMPTY = 0 :=
  capacity_zero_full_and_empty (channel_create 0) 5 rfl rfl rfl

end Channels
